import Mathlib

/-!
Shallow embedding of the railrepay delay-tracker service core, translated
from the TypeScript source (services/delay-detector, services/journey-monitor,
services/claim-trigger, services/delay-tracker orchestrator, and the
delay-alert / journey repositories), together with theorems settling the
specification claims about it.

Timestamps are modelled as `Int` milliseconds since the epoch (the source
uses JavaScript `Date.getTime()` arithmetic).  JavaScript truthiness on
optional strings and booleans is modelled explicitly.
-/

namespace DelayTracker

/-- The five monitoring states of a journey (types.ts `MonitoringStatus`). -/
inductive MonitoringStatus where
  | pending_rid
  | active
  | delayed
  | completed
  | cancelled
deriving DecidableEq, Repr

/-- `VALID_TRANSITIONS` table from journey-monitor.ts. -/
def validTransitions : MonitoringStatus → List MonitoringStatus
  | .pending_rid => [.active, .cancelled]
  | .active => [.delayed, .completed, .cancelled]
  | .delayed => [.completed, .cancelled]
  | .completed => []
  | .cancelled => []

/-- Render a status the way the source spells it (for error messages). -/
def MonitoringStatus.toStr : MonitoringStatus → String
  | .pending_rid => "pending_rid"
  | .active => "active"
  | .delayed => "delayed"
  | .completed => "completed"
  | .cancelled => "cancelled"

/-- JavaScript truthiness of an optional boolean field. -/
def truthyB : Option Bool → Bool
  | some true => true
  | _ => false

/-- JavaScript truthiness of an optional string field (empty string is falsy). -/
def truthyS : Option String → Bool
  | none => false
  | some s => s ≠ ""

/-- Darwin delay record as consumed by the detector
(delay-detector.ts `DelayData`; `delay_reasons` is an opaque blob). -/
structure DelayData where
  rid : String
  total_delay_minutes : Int
  cancelled : Bool
  delay_reasons : Option String
deriving DecidableEq, Repr

/-- Journey projection passed to the detector (delay-detector.ts `JourneyData`). -/
structure JourneyData where
  id : Option String
  rid : Option String
deriving DecidableEq, Repr

/-- Detection result (types.ts `DelayResult`); the optional `dataNotFound`
field is modelled with absent meaning `false`. -/
structure DelayResult where
  journeyId : String
  rid : String
  isDelayed : Bool
  isCancelled : Bool
  delayMinutes : Int
  exceedsThreshold : Bool
  claimEligible : Bool
  delayReasons : Option String
  dataNotFound : Bool
deriving DecidableEq, Repr

/-- `DelayDetector` constructor: threshold defaults to 15 and construction
rejects a non-positive threshold (delay-detector.ts constructor). -/
def mkDelayDetector (thresholdMinutes : Option Int) : Except String Int :=
  let threshold := thresholdMinutes.getD 15
  if threshold ≤ 0 then .error "Threshold must be a positive number"
  else .ok threshold

/-- `DelayDetector.meetsThreshold`. -/
def meetsThreshold (thresholdMinutes delayMinutes : Int) : Bool :=
  thresholdMinutes ≤ delayMinutes

/-- `DelayDetector.detectDelay`. -/
def detectDelay (thresholdMinutes : Int) (journey : JourneyData)
    (delayData : DelayData) : DelayResult :=
  let delayMinutes := delayData.total_delay_minutes
  let isCancelled := delayData.cancelled
  let isDelayed := (0 < delayMinutes : Bool) || isCancelled
  let exceedsThreshold := meetsThreshold thresholdMinutes delayMinutes
  let claimEligible := exceedsThreshold || isCancelled
  { journeyId := journey.id.getD ""
    rid := delayData.rid
    isDelayed := isDelayed
    isCancelled := isCancelled
    delayMinutes := delayMinutes
    exceedsThreshold := exceedsThreshold
    claimEligible := claimEligible
    delayReasons := delayData.delay_reasons
    dataNotFound := false }

/-- `DelayDetector.findDelayByRid`: an empty rid never matches; otherwise
the first record with an exactly equal rid is used. -/
def findDelayByRid (rid : String) (delayDataArray : List DelayData) :
    Option DelayData :=
  if rid = "" then none
  else delayDataArray.find? (fun d => d.rid = rid)

/-- The result the batch emits when no delay record matches a journey. -/
def dataNotFoundResult (journey : JourneyData) : DelayResult :=
  { journeyId := journey.id.getD ""
    rid := journey.rid.getD ""
    isDelayed := false
    isCancelled := false
    delayMinutes := 0
    exceedsThreshold := false
    claimEligible := false
    delayReasons := none
    dataNotFound := true }

/-- `DelayDetector.detectDelaysBatch`. -/
def detectDelaysBatch (thresholdMinutes : Int) (journeys : List JourneyData)
    (delayDataArray : List DelayData) : List DelayResult :=
  journeys.map (fun journey =>
    match findDelayByRid (journey.rid.getD "") delayDataArray with
    | some delayData => detectDelay thresholdMinutes journey delayData
    | none => dataNotFoundResult journey)

/-- Substring test (JavaScript `String.prototype.includes`). -/
def hasSubstr (haystack needle : String) : Bool :=
  (haystack.splitOn needle).length > 1

/-- claim-trigger.ts error-message classification: the message is a
network/timeout/connection error when its lowercase form contains
"network" or "timeout", or it contains "ECONNREFUSED". -/
def isNetworkErrorMsg (msg : String) : Bool :=
  hasSubstr msg.toLower "network" || hasSubstr msg "ECONNREFUSED" ||
    hasSubstr msg.toLower "timeout"

/-- Input to `ClaimTrigger.triggerClaim` (claim-trigger.ts `DelayAlertInput`). -/
structure DelayAlertInput where
  id : String
  monitored_journey_id : String
  delay_minutes : Int
  user_id : String
  claim_triggered : Option Bool
  claim_reference_id : Option String
deriving DecidableEq, Repr

/-- Oracle response body (types.ts `ClaimTriggerApiResponse`); `success`
may be absent at runtime, so it is an `Option` here. -/
structure ClaimTriggerApiResponse where
  success : Option Bool
  claim_reference_id : Option String
  message : Option String
  eligible : Option Bool
  estimated_compensation : Option Int
deriving DecidableEq, Repr

/-- What the awaited oracle call does: return a response body, or raise. -/
inductive OracleOutcome where
  | resp (r : ClaimTriggerApiResponse)
  | thrown (msg : String)
deriving DecidableEq, Repr

/-- types.ts `ClaimTriggerReason`. -/
inductive ClaimTriggerReason where
  | BELOW_THRESHOLD
  | NOT_ELIGIBLE
  | SERVICE_ERROR
  | DUPLICATE_CLAIM
  | NETWORK_ERROR
  | ALREADY_TRIGGERED
deriving DecidableEq, Repr

/-- The string form of a reason (its TypeScript enum literal). -/
def ClaimTriggerReason.toStr : ClaimTriggerReason → String
  | .BELOW_THRESHOLD => "BELOW_THRESHOLD"
  | .NOT_ELIGIBLE => "NOT_ELIGIBLE"
  | .SERVICE_ERROR => "SERVICE_ERROR"
  | .DUPLICATE_CLAIM => "DUPLICATE_CLAIM"
  | .NETWORK_ERROR => "NETWORK_ERROR"
  | .ALREADY_TRIGGERED => "ALREADY_TRIGGERED"

/-- types.ts `ClaimTriggerResult`; absent and explicit-null optional fields
are both modelled as `none`. -/
structure ClaimTriggerResult where
  success : Bool
  reason : Option ClaimTriggerReason
  claimReferenceId : Option String
  estimatedCompensation : Option Int
  existingClaimReferenceId : Option String
  error : Option String
  retryable : Option Bool
  delayAlertId : String
deriving DecidableEq, Repr

/-- `ClaimTrigger.triggerClaim`, with the awaited oracle call supplied as
`oracle`; the second component records whether the oracle was invoked. -/
def triggerClaim (thresholdMinutes : Int) (delayAlert : DelayAlertInput)
    (oracle : OracleOutcome) : ClaimTriggerResult × Bool :=
  if truthyB delayAlert.claim_triggered then
    ({ success := false
       reason := some .ALREADY_TRIGGERED
       claimReferenceId := none
       estimatedCompensation := none
       existingClaimReferenceId := delayAlert.claim_reference_id
       error := none
       retryable := none
       delayAlertId := delayAlert.id }, false)
  else if delayAlert.delay_minutes < thresholdMinutes then
    ({ success := false
       reason := some .BELOW_THRESHOLD
       claimReferenceId := none
       estimatedCompensation := none
       existingClaimReferenceId := none
       error := none
       retryable := none
       delayAlertId := delayAlert.id }, false)
  else
    match oracle with
    | .thrown msg =>
      ({ success := false
         reason := some .NETWORK_ERROR
         claimReferenceId := none
         estimatedCompensation := none
         existingClaimReferenceId := none
         error := some msg
         retryable := some (isNetworkErrorMsg msg)
         delayAlertId := delayAlert.id }, true)
    | .resp r =>
      if !truthyB r.success && truthyS r.claim_reference_id then
        ({ success := false
           reason := some .DUPLICATE_CLAIM
           claimReferenceId := none
           estimatedCompensation := none
           existingClaimReferenceId := r.claim_reference_id
           error := none
           retryable := none
           delayAlertId := delayAlert.id }, true)
      else if r.eligible = some false then
        ({ success := false
           reason := some .NOT_ELIGIBLE
           claimReferenceId := none
           estimatedCompensation := none
           existingClaimReferenceId := none
           error := none
           retryable := none
           delayAlertId := delayAlert.id }, true)
      else if !truthyB r.success then
        ({ success := false
           reason := some .SERVICE_ERROR
           claimReferenceId := none
           estimatedCompensation := none
           existingClaimReferenceId := none
           error := r.message
           retryable := some false
           delayAlertId := delayAlert.id }, true)
      else
        ({ success := true
           reason := none
           claimReferenceId := r.claim_reference_id
           estimatedCompensation := r.estimated_compensation
           existingClaimReferenceId := none
           error := none
           retryable := none
           delayAlertId := delayAlert.id }, true)

/-- A monitored_journeys row (types.ts `MonitoredJourney`; timestamps in ms). -/
structure Journey where
  id : String
  user_id : String
  journey_id : String
  rid : Option String
  service_date : String
  origin_crs : String
  destination_crs : String
  scheduled_departure : Int
  scheduled_arrival : Int
  monitoring_status : MonitoringStatus
  last_checked_at : Option Int
  next_check_at : Option Int
deriving DecidableEq, Repr

/-- A JSONB value as it matters to the delay-alert repository: either a JSON
string, or an object carrying a `message` key (the repository's wrapper). -/
inductive StoredJson where
  | jstr (s : String)
  | jmsgObj (s : String)
deriving DecidableEq, Repr

/-- A delay_alerts row (types.ts `DelayAlert`). -/
structure Alert where
  id : String
  monitored_journey_id : String
  delay_minutes : Int
  delay_detected_at : Int
  delay_reasons : Option String
  is_cancellation : Bool
  threshold_exceeded : Bool
  claim_triggered : Bool
  claim_triggered_at : Option Int
  claim_reference_id : Option String
  claim_trigger_response : Option StoredJson
  notification_sent : Bool
deriving DecidableEq, Repr

/-- An outbox row restricted to the envelope and the payload keys the claims
mention; `none` payload fields are keys absent from the JSON payload. -/
structure OutboxRow where
  event_type : String
  aggregate_type : String
  aggregate_id : String
  correlation_id : String
  p_journeyId : Option String
  p_alertId : Option String
  p_userId : Option String
  p_delayMinutes : Option Int
  p_claimReferenceId : Option String
  p_completedAt : Option Int
  p_hadDelay : Option Bool
deriving DecidableEq, Repr

/-- The delay_tracker schema state. -/
structure DB where
  journeys : List Journey
  alerts : List Alert
  outbox : List OutboxRow
deriving DecidableEq, Repr

/-- `JourneyRepository.findById`. -/
def findById (db : DB) (id : String) : Option Journey :=
  db.journeys.find? (fun j => j.id = id)

/-- `JourneyRepository.findByJourneyId`. -/
def findByJourneyId (db : DB) (journeyId : String) : Option Journey :=
  db.journeys.find? (fun j => j.journey_id = journeyId)

/-- `JourneyRepository.updateStatus`: sets `monitoring_status` for the row
with the given id, co-setting `rid` only when the passed rid is truthy. -/
def repoUpdateStatus (db : DB) (id : String) (status : MonitoringStatus)
    (rid : Option String) : DB :=
  { db with journeys := db.journeys.map (fun j =>
      if j.id = id then
        if truthyS rid then { j with monitoring_status := status, rid := rid }
        else { j with monitoring_status := status }
      else j) }

/-- `JourneyRepository.update` restricted to `next_check_at`. -/
def repoUpdateNextCheck (db : DB) (id : String) (v : Option Int) : DB :=
  { db with journeys := db.journeys.map (fun j =>
      if j.id = id then { j with next_check_at := v } else j) }

/-- `JourneyRepository.update` restricted to `rid` plus `monitoring_status`
(the shape `JourneyMonitor.resolveRid` uses). -/
def repoUpdateRidStatus (db : DB) (id : String) (rid : String)
    (status : MonitoringStatus) : DB :=
  { db with journeys := db.journeys.map (fun j =>
      if j.id = id then { j with rid := some rid, monitoring_status := status }
      else j) }

/-- `JourneyRepository.updateLastChecked`: bulk update of `last_checked_at`
and `next_check_at` (an omitted nextCheckAt is stored as NULL). -/
def repoUpdateLastChecked (db : DB) (ids : List String) (checkedAt : Int)
    (nextCheckAt : Option Int) : DB :=
  if ids.isEmpty then db
  else
    { db with journeys := db.journeys.map (fun j =>
        if ids.contains j.id then
          { j with last_checked_at := some checkedAt, next_check_at := nextCheckAt }
        else j) }

/-- Journey monitor tick interval: 5 minutes in ms. -/
def tickIntervalMs : Int := 5 * 60 * 1000

/-- 48 hours in ms (journey-monitor.ts `t48Hours`). -/
def t48HoursMs : Int := 48 * 60 * 60 * 1000

/-- A status-update statement issued against the store. -/
structure UpdateStmt where
  id : String
  status : MonitoringStatus
  rid : Option String
deriving DecidableEq, Repr

/-- `JourneyMonitor.updateStatus`: looks the journey up; when found,
validates the transition and raises on an invalid one; then issues the
repository status update.  Returns the outcome, the resulting store, and
the list of status-update statements issued. -/
def monitorUpdateStatus (db : DB) (journeyId : String)
    (newStatus : MonitoringStatus) (rid : Option String) :
    Except String Unit × DB × List UpdateStmt :=
  match findById db journeyId with
  | some journey =>
    if (validTransitions journey.monitoring_status).contains newStatus then
      (.ok (), repoUpdateStatus db journeyId newStatus rid,
        [⟨journeyId, newStatus, rid⟩])
    else
      (.error ("Invalid status transition from " ++
          journey.monitoring_status.toStr ++ " to " ++ newStatus.toStr),
        db, [])
  | none =>
    (.ok (), repoUpdateStatus db journeyId newStatus rid,
      [⟨journeyId, newStatus, rid⟩])

/-- `JourneyMonitor.updateLastChecked`: two repository calls, the first
without a nextCheckAt, the second setting it to now + 5 minutes. -/
def monitorUpdateLastChecked (db : DB) (journeyIds : List String)
    (now : Int) : DB :=
  if journeyIds.isEmpty then db
  else
    repoUpdateLastChecked (repoUpdateLastChecked db journeyIds now none)
      journeyIds now (some (now + tickIntervalMs))

/-- Input to `JourneyMonitor.registerJourney`. -/
structure RegisterJourneyData where
  user_id : String
  journey_id : String
  service_date : String
  origin_crs : String
  destination_crs : String
  scheduled_departure : Int
  scheduled_arrival : Int
deriving DecidableEq, Repr

/-- `JourneyMonitor.registerJourney`; `newId` stands for the generated row id. -/
def registerJourney (db : DB) (data : RegisterJourneyData) (now : Int)
    (newId : String) : Except String (Journey × DB) :=
  match findByJourneyId db data.journey_id with
  | some _ => .error "Journey already registered for monitoring"
  | none =>
    let timeUntilDeparture := data.scheduled_departure - now
    let nextCheckAt : Int :=
      if t48HoursMs < timeUntilDeparture then
        data.scheduled_departure - t48HoursMs
      else
        now + tickIntervalMs
    let j : Journey :=
      { id := newId
        user_id := data.user_id
        journey_id := data.journey_id
        rid := none
        service_date := data.service_date
        origin_crs := data.origin_crs
        destination_crs := data.destination_crs
        scheduled_departure := data.scheduled_departure
        scheduled_arrival := data.scheduled_arrival
        monitoring_status := .pending_rid
        last_checked_at := none
        next_check_at := some nextCheckAt }
    .ok (j, { db with journeys := db.journeys ++ [j] })

/-- `JourneyMonitor.resolveRid`: set rid and status active, then set
`next_check_at` to now. -/
def resolveRid (db : DB) (journeyId : String) (rid : String) (now : Int) :
    Except String DB :=
  match findById db journeyId with
  | none => .error "Journey not found"
  | some _ =>
    .ok (repoUpdateNextCheck (repoUpdateRidStatus db journeyId rid .active)
      journeyId (some now))

/-- `JourneyMonitor.cancelMonitoring`: repository status update (no
transition validation) followed by clearing `next_check_at`. -/
def cancelMonitoring (db : DB) (journeyId : String) : Except String DB :=
  match findById db journeyId with
  | none => .error "Journey not found"
  | some _ =>
    .ok (repoUpdateNextCheck (repoUpdateStatus db journeyId .cancelled none)
      journeyId none)

/-- `JourneyMonitor.completeJourney`: repository status update (no
transition validation) followed by clearing `next_check_at`. -/
def completeJourney (db : DB) (journeyId : String) : Except String DB :=
  match findById db journeyId with
  | none => .error "Journey not found"
  | some _ =>
    .ok (repoUpdateNextCheck (repoUpdateStatus db journeyId .completed none)
      journeyId none)

/-- The `claim_trigger_response` parameter value computed by
`DelayAlertRepository.create`: a truthy string is wrapped as the JSON
object with a `message` key; a falsy value (absent, null, or the empty
string) is stored as NULL. -/
def createClaimResponseStored (v : Option String) : Option StoredJson :=
  match v with
  | none => none
  | some s => if s = "" then none else some (.jmsgObj s)

/-- The `claim_trigger_response` handling in `DelayAlertRepository.update`:
a truthy string is wrapped as the JSON object with a `message` key; the
empty string falls into the generic branch, which passes the raw empty
string to the JSONB column, and the column rejects it as invalid JSON. -/
def updateClaimResponseStored (v : String) : Except String (Option StoredJson) :=
  if v = "" then .error "invalid input syntax for type json"
  else .ok (some (.jmsgObj v))

/-- `DelayAlertRepository.mapRow` on the `claim_trigger_response` column: a
falsy value (NULL or the empty JSON string) maps to null; an object with a
`message` key yields that message; a non-empty JSON string yields itself. -/
def readClaimTriggerResponse : Option StoredJson → Option String
  | none => none
  | some (.jmsgObj s) => some s
  | some (.jstr s) => if s = "" then none else some s

/-- `OutboxPublisher.publishDelayDetected` row. -/
def delayDetectedRow (journeyId alertId userId : String) (delayMinutes : Int)
    (correlationId : String) : OutboxRow :=
  { event_type := "delay.detected"
    aggregate_type := "delay_alert"
    aggregate_id := alertId
    correlation_id := correlationId
    p_journeyId := some journeyId
    p_alertId := some alertId
    p_userId := some userId
    p_delayMinutes := some delayMinutes
    p_claimReferenceId := none
    p_completedAt := none
    p_hadDelay := none }

/-- `OutboxPublisher.publishClaimTriggered` row. -/
def claimTriggeredRow (alertId journeyId userId claimReferenceId : String)
    (delayMinutes : Int) (correlationId : String) : OutboxRow :=
  { event_type := "claim.triggered"
    aggregate_type := "delay_alert"
    aggregate_id := alertId
    correlation_id := correlationId
    p_journeyId := some journeyId
    p_alertId := some alertId
    p_userId := some userId
    p_delayMinutes := some delayMinutes
    p_claimReferenceId := some claimReferenceId
    p_completedAt := none
    p_hadDelay := none }

/-- `OutboxPublisher.publishJourneyCompleted` row (the orchestrator omits
the optional delayMinutes payload key). -/
def journeyCompletedRow (journeyId userId : String) (completedAt : Int)
    (hadDelay : Bool) (correlationId : String) : OutboxRow :=
  { event_type := "journey.completed"
    aggregate_type := "monitored_journey"
    aggregate_id := journeyId
    correlation_id := correlationId
    p_journeyId := some journeyId
    p_alertId := none
    p_userId := some userId
    p_delayMinutes := none
    p_claimReferenceId := none
    p_completedAt := some completedAt
    p_hadDelay := some hadDelay }

/-- An exception injected into a statement of the per-journey transaction
(any database statement can raise at runtime; these are the injection
points the theorems need). -/
inductive TxFault where
  | noFault
  | failAlertInsert
  | failDelayDetectedInsert
deriving DecidableEq, Repr

/-- Outcome of processing one detection result in the orchestrator loop. -/
structure PerJourneyOutcome where
  db : DB
  committed : Bool
  claimTriggerInvoked : Bool
  delaysDetectedDelta : Nat
  claimsTriggeredDelta : Nat
deriving DecidableEq, Repr

/-- One iteration of the orchestrator's per-journey commit loop
(delay-tracker.ts `runDetectionCycle`, step 7).  Statements issued on the
transaction client (alert insert, outbox inserts, alert updates) are staged
and take effect only at COMMIT; `JourneyRepository.updateStatus` runs on
the pool — outside the transaction — so its effect lands immediately and
survives a later ROLLBACK.  The delay_alerts check constraint
`delay_minutes > 0` makes a non-positive insert raise.  On any exception
the transaction is rolled back and the loop continues. -/
def processResult (claimThresholdMinutes : Int) (journeysWithRids : List Journey)
    (correlationId : String) (now : Int) (alertIdFor : String → String)
    (oracleFor : String → OracleOutcome) (fault : TxFault)
    (db : DB) (result : DelayResult) : PerJourneyOutcome :=
  if !result.exceedsThreshold && !result.isCancelled then
    ⟨db, false, false, 0, 0⟩
  else
    match journeysWithRids.find? (fun j => j.id = result.journeyId) with
    | none => ⟨db, false, false, 1, 0⟩
    | some journey =>
      let alertDelayMinutes : Int :=
        if result.isCancelled && result.delayMinutes = 0 then 1
        else result.delayMinutes
      if fault = .failAlertInsert || alertDelayMinutes ≤ 0 then
        ⟨db, false, false, 1, 0⟩
      else
        let alertId := alertIdFor result.journeyId
        let alert0 : Alert :=
          { id := alertId
            monitored_journey_id := result.journeyId
            delay_minutes := alertDelayMinutes
            delay_detected_at := now
            delay_reasons := result.delayReasons
            is_cancellation := result.isCancelled
            threshold_exceeded := result.exceedsThreshold
            claim_triggered := false
            claim_triggered_at := none
            claim_reference_id := none
            claim_trigger_response := none
            notification_sent := false }
        let target : MonitoringStatus :=
          if result.isCancelled then .cancelled else .delayed
        match monitorUpdateStatus db result.journeyId target none with
        | (.error _, _, _) => ⟨db, false, false, 1, 0⟩
        | (.ok (), dbAfterStatus, _) =>
          if fault = .failDelayDetectedInsert then
            ⟨dbAfterStatus, false, false, 1, 0⟩
          else
            let detectedRow := delayDetectedRow result.journeyId alertId
              journey.user_id result.delayMinutes correlationId
            if result.claimEligible && !result.isCancelled then
              let (claimResult, invoked) := triggerClaim claimThresholdMinutes
                { id := alertId
                  monitored_journey_id := result.journeyId
                  delay_minutes := result.delayMinutes
                  user_id := journey.user_id
                  claim_triggered := none
                  claim_reference_id := none }
                (oracleFor result.journeyId)
              if claimResult.success && truthyS claimResult.claimReferenceId then
                let alert1 :=
                  { alert0 with
                    claim_triggered := true
                    claim_triggered_at := some now
                    claim_reference_id := claimResult.claimReferenceId }
                let ctRow := claimTriggeredRow alertId result.journeyId
                  journey.user_id (claimResult.claimReferenceId.getD "")
                  result.delayMinutes correlationId
                ⟨{ dbAfterStatus with
                    alerts := dbAfterStatus.alerts ++ [alert1]
                    outbox := dbAfterStatus.outbox ++ [detectedRow, ctRow] },
                  true, invoked, 1, 1⟩
              else
                let responseMsg : String :=
                  if claimResult.reason = some .NOT_ELIGIBLE then
                    "Journey does not meet eligibility criteria - not eligible"
                  else if truthyS claimResult.error then
                    claimResult.error.getD ""
                  else
                    match claimResult.reason with
                    | some rn => rn.toStr
                    | none => "Claim trigger failed"
                match updateClaimResponseStored responseMsg with
                | .error _ => ⟨dbAfterStatus, false, invoked, 1, 0⟩
                | .ok stored =>
                  let alert1 :=
                    { alert0 with
                      claim_triggered := false
                      claim_trigger_response := stored }
                  ⟨{ dbAfterStatus with
                      alerts := dbAfterStatus.alerts ++ [alert1]
                      outbox := dbAfterStatus.outbox ++ [detectedRow] },
                    true, invoked, 1, 0⟩
            else
              ⟨{ dbAfterStatus with
                  alerts := dbAfterStatus.alerts ++ [alert0]
                  outbox := dbAfterStatus.outbox ++ [detectedRow] },
                true, false, 1, 0⟩

/-- Which journeys are due: `next_check_at ≤ now` and status active or
pending_rid (`JourneyRepository.findJourneysDueForCheck` WHERE clause). -/
def isDue (now : Int) (j : Journey) : Bool :=
  (match j.next_check_at with
   | none => false
   | some t => t ≤ now) &&
  (j.monitoring_status = .active || j.monitoring_status = .pending_rid)

/-- Sort key for the due query ordering. -/
def dueKey (j : Journey) : Int := j.next_check_at.getD 0

/-- Insertion into a list sorted by `next_check_at` ascending. -/
def insertByNextCheck (j : Journey) : List Journey → List Journey
  | [] => [j]
  | x :: xs =>
    if dueKey j ≤ dueKey x then j :: x :: xs else x :: insertByNextCheck j xs

/-- Insertion sort by `next_check_at` ascending (ORDER BY next_check_at ASC). -/
def sortByNextCheck (js : List Journey) : List Journey :=
  js.foldr insertByNextCheck []

/-- `JourneyRepository.findJourneysDueForCheck`. -/
def findJourneysDueForCheck (db : DB) (limit : Nat) (now : Int) :
    List Journey :=
  (sortByNextCheck (db.journeys.filter (isDue now))).take limit

/-- What the journey-matcher lookup yields for a pending_rid journey, after
the orchestrator extracts the non-null segment rids. -/
inductive MatcherOutcome where
  | found (extractedRids : List String)
  | notFoundOrNoSegments
  | errored (msg : String)

/-- External behaviour and per-cycle identifiers for one detection cycle. -/
structure CycleEnv where
  now : Int
  correlationId : String
  detectorThresholdMinutes : Int
  claimThresholdMinutes : Int
  matcher : String → MatcherOutcome
  darwin : Except String (List DelayData)
  oracleFor : String → OracleOutcome
  alertIdFor : String → String
  fault : TxFault

/-- Result of the orchestrator's step-3 partition over the due set. -/
structure PartitionOutcome where
  db : DB
  pendingRid : List Journey
  active : List Journey
  completedIds : List String

/-- Steps 2-3 of `runDetectionCycle`: journeys past their scheduled arrival
are completed (with a journey.completed outbox row written outside any
transaction) and recorded; the rest are partitioned by status. -/
def completionPass (now : Int) (correlationId : String) :
    DB → List Journey → Except String PartitionOutcome
  | db, [] => .ok ⟨db, [], [], []⟩
  | db, journey :: rest =>
    if journey.scheduled_arrival < now then
      match completeJourney db journey.id with
      | .error e => .error e
      | .ok db1 =>
        let row := journeyCompletedRow journey.id journey.user_id now
          (journey.monitoring_status = .delayed) correlationId
        let db2 := { db1 with outbox := db1.outbox ++ [row] }
        match completionPass now correlationId db2 rest with
        | .error e => .error e
        | .ok o => .ok ⟨o.db, o.pendingRid, o.active, journey.id :: o.completedIds⟩
    else if journey.monitoring_status = .pending_rid then
      match completionPass now correlationId db rest with
      | .error e => .error e
      | .ok o => .ok ⟨o.db, journey :: o.pendingRid, o.active, o.completedIds⟩
    else if journey.monitoring_status = .active then
      match completionPass now correlationId db rest with
      | .error e => .error e
      | .ok o => .ok ⟨o.db, o.pendingRid, journey :: o.active, o.completedIds⟩
    else
      completionPass now correlationId db rest

/-- Step 4 of `runDetectionCycle`: serial rid resolution for pending_rid
journeys; matcher misses and errors push `next_check_at` forward. -/
def ridResolutionPass (now : Int) (matcher : String → MatcherOutcome) :
    DB → List Journey → DB
  | db, [] => db
  | db, journey :: rest =>
    let db1 :=
      match matcher journey.journey_id with
      | .found [] => monitorUpdateLastChecked db [journey.id] now
      | .found (rid :: _) =>
        match resolveRid db journey.id rid now with
        | .ok db2 => db2
        | .error _ => monitorUpdateLastChecked db [journey.id] now
      | .notFoundOrNoSegments => monitorUpdateLastChecked db [journey.id] now
      | .errored _ => monitorUpdateLastChecked db [journey.id] now
    ridResolutionPass now matcher db1 rest

/-- The orchestrator's mapping of the upstream response before detection:
with exactly one journey and exactly one record, the record is re-keyed to
the journey's rid; otherwise the response is used as-is. -/
def mapDelayData (journeysWithRids : List Journey)
    (delayDataArray : List DelayData) : List DelayData :=
  match journeysWithRids, delayDataArray with
  | [j], [d] => [{ d with rid := j.rid.getD "" }]
  | _, _ => delayDataArray

/-- Step 6 of `runDetectionCycle`: classify the active journeys against the
(possibly re-keyed) upstream records. -/
def classifyActive (detectorThresholdMinutes : Int)
    (journeysWithRids : List Journey) (delayDataArray : List DelayData) :
    List DelayResult :=
  detectDelaysBatch detectorThresholdMinutes
    (journeysWithRids.map (fun j => ⟨some j.id, j.rid⟩))
    (mapDelayData journeysWithRids delayDataArray)

/-- Step 7 of `runDetectionCycle`: the per-journey commit loop. -/
def commitPass (claimThresholdMinutes : Int) (journeysWithRids : List Journey)
    (correlationId : String) (now : Int) (alertIdFor : String → String)
    (oracleFor : String → OracleOutcome) (fault : TxFault) :
    DB × Nat × Nat → List DelayResult → DB × Nat × Nat
  | acc, [] => acc
  | (db, dd, ct), result :: rest =>
    let o := processResult claimThresholdMinutes journeysWithRids
      correlationId now alertIdFor oracleFor fault db result
    commitPass claimThresholdMinutes journeysWithRids correlationId now
      alertIdFor oracleFor fault
      (o.db, dd + o.delaysDetectedDelta, ct + o.claimsTriggeredDelta) rest

/-- Metrics and final state of one detection cycle. -/
structure CycleOutcome where
  db : DB
  journeysChecked : Nat
  delaysDetected : Nat
  claimsTriggered : Nat
deriving DecidableEq, Repr

/-- `DelayTrackerService.runDetectionCycle`.  An upstream (darwin) failure
advances `next_check_at` for the queried journeys and returns early with
zero detections; otherwise the per-journey commits run and the final bulk
pacing update touches every due journey that was not completed. -/
def runDetectionCycle (db0 : DB) (env : CycleEnv) :
    Except String CycleOutcome :=
  let journeysDue := findJourneysDueForCheck db0 100 env.now
  let journeysChecked := journeysDue.length
  if journeysDue.isEmpty then .ok ⟨db0, 0, 0, 0⟩
  else
    match completionPass env.now env.correlationId db0 journeysDue with
    | .error e => .error e
    | .ok part =>
      let dbAfterRid := ridResolutionPass env.now env.matcher part.db part.pendingRid
      let journeysWithRids := part.active.filter (fun j => truthyS j.rid)
      let afterDetect : Except String (DB × Nat × Nat × Bool) :=
        if journeysWithRids.isEmpty then .ok (dbAfterRid, 0, 0, false)
        else
          match env.darwin with
          | .error _ =>
            .ok (monitorUpdateLastChecked dbAfterRid
              (journeysWithRids.map (fun j => j.id)) env.now, 0, 0, true)
          | .ok delayDataArray =>
            let delayResults := classifyActive env.detectorThresholdMinutes
              journeysWithRids delayDataArray
            let (db1, dd, ct) := commitPass env.claimThresholdMinutes
              journeysWithRids env.correlationId env.now env.alertIdFor
              env.oracleFor env.fault (dbAfterRid, 0, 0) delayResults
            .ok (db1, dd, ct, false)
      match afterDetect with
      | .error e => .error e
      | .ok (db1, dd, ct, earlyReturn) =>
        if earlyReturn then .ok ⟨db1, journeysChecked, 0, 0⟩
        else
          let remainingIds := (journeysDue.filter
            (fun j => !(part.completedIds.contains j.id))).map (fun j => j.id)
          let db2 :=
            if remainingIds.isEmpty then db1
            else monitorUpdateLastChecked db1 remainingIds env.now
          .ok ⟨db2, journeysChecked, dd, ct⟩

/-- The permitted status-transition set exactly as the specification
enumerates it, written independently of `validTransitions` so the two can
be compared. -/
def permittedTransitionSpec : MonitoringStatus → MonitoringStatus → Bool
  | .pending_rid, .active => true
  | .pending_rid, .cancelled => true
  | .active, .delayed => true
  | .active, .completed => true
  | .active, .cancelled => true
  | .delayed, .completed => true
  | .delayed, .cancelled => true
  | _, _ => false

/-- A concrete active journey with a resolved rid, due for a check at the
sample instant 1000000 ms and not yet past its scheduled arrival. -/
def sampleActiveJourney : Journey :=
  { id := "j1"
    user_id := "u1"
    journey_id := "ext1"
    rid := some "R1"
    service_date := "2026-01-20"
    origin_crs := "AAA"
    destination_crs := "BBB"
    scheduled_departure := 2000000
    scheduled_arrival := 3000000
    monitoring_status := .active
    last_checked_at := none
    next_check_at := some 900000 }

/-- Store holding just the sample journey, no alerts, empty outbox. -/
def sampleDB : DB := ⟨[sampleActiveJourney], [], []⟩

/-- Base cycle environment for the concrete-state theorems; individual
theorems override the upstream response, oracle, and fault. -/
def sampleEnv : CycleEnv :=
  { now := 1000000
    correlationId := "c1"
    detectorThresholdMinutes := 15
    claimThresholdMinutes := 15
    matcher := fun _ => .notFoundOrNoSegments
    darwin := .ok []
    oracleFor := fun _ => .thrown "never"
    alertIdFor := fun _ => "a1"
    fault := .noFault }

/-! ## Theorems -/

/-- C3 counterexample: a journey whose rid is the empty string, matching a
record whose rid is also the empty string (exact string equality) and whose
delay is 20 ≥ 15, is nonetheless classified `data_not_found` with all
booleans false — the claim as stated requires `exceeds_threshold = true`
for any journey whose rid matches a record. -/
theorem detectDelaysBatch_empty_rid_counterexample :
    (⟨some "j1", some ""⟩ : JourneyData).rid =
      some (⟨"", 20, false, none⟩ : DelayData).rid ∧
    (detectDelaysBatch 15 [⟨some "j1", some ""⟩] [⟨"", 20, false, none⟩]).map
        (fun r => (r.dataNotFound, r.isDelayed, r.isCancelled,
          r.exceedsThreshold, r.claimEligible)) =
      [(true, false, false, false, false)] := by
  decide

/-- C3 (amended): the Delay Detector is a pure classifier.  Construction
rejects a non-positive threshold, accepts a positive one, and defaults to
15.  A classified journey gets `is_delayed = (minutes > 0 or cancelled)`,
`is_cancelled = cancelled`, `exceeds_threshold = (minutes ≥ T)`,
`claim_eligible = (exceeds_threshold or cancelled)`.  A journey whose
NONEMPTY rid equals the rid of some record (the first such record) is
classified against that record; a journey whose rid is empty or matches no
record yields a result with `data_not_found = true` and all four booleans
false. -/
theorem delayDetector_classification :
    (∀ cfg : Option Int, 0 < cfg.getD 15 → mkDelayDetector cfg = .ok (cfg.getD 15)) ∧
    (∀ cfg : Option Int, cfg.getD 15 ≤ 0 → ∃ e, mkDelayDetector cfg = .error e) ∧
    mkDelayDetector none = .ok 15 ∧
    (∀ (t : Int) (j : JourneyData) (d : DelayData),
      (detectDelay t j d).isDelayed =
        (decide (0 < d.total_delay_minutes) || d.cancelled) ∧
      (detectDelay t j d).isCancelled = d.cancelled ∧
      (detectDelay t j d).exceedsThreshold = decide (t ≤ d.total_delay_minutes) ∧
      (detectDelay t j d).claimEligible =
        (decide (t ≤ d.total_delay_minutes) || d.cancelled) ∧
      (detectDelay t j d).dataNotFound = false) ∧
    (∀ (t : Int) (js : List JourneyData) (ds : List DelayData) (i : Nat)
        (j : JourneyData) (r : String) (d : DelayData),
      js[i]? = some j → j.rid = some r → r ≠ "" →
      ds.find? (fun x => x.rid = r) = some d →
      (detectDelaysBatch t js ds)[i]? = some (detectDelay t j d)) ∧
    (∀ (t : Int) (js : List JourneyData) (ds : List DelayData) (i : Nat)
        (j : JourneyData),
      js[i]? = some j →
      (j.rid.getD "" = "" ∨ ∀ d ∈ ds, d.rid ≠ j.rid.getD "") →
      (detectDelaysBatch t js ds)[i]? = some (dataNotFoundResult j)) ∧
    (∀ j : JourneyData,
      (dataNotFoundResult j).dataNotFound = true ∧
      (dataNotFoundResult j).isDelayed = false ∧
      (dataNotFoundResult j).isCancelled = false ∧
      (dataNotFoundResult j).exceedsThreshold = false ∧
      (dataNotFoundResult j).claimEligible = false) := by
  refine ⟨?_, ?_, rfl, ?_, ?_, ?_, ?_⟩
  · intro cfg h
    unfold mkDelayDetector
    rw [if_neg (by omega)]
  · intro cfg h
    exact ⟨_, by unfold mkDelayDetector; rw [if_pos h]⟩
  · intro t j d
    exact ⟨rfl, rfl, rfl, rfl, rfl⟩
  · intro t js ds i j r d hj hr hne hfind
    have hfd : findDelayByRid (j.rid.getD "") ds = some d := by
      rw [hr]
      simpa [findDelayByRid, hne] using hfind
    simp only [detectDelaysBatch, List.getElem?_map, hj, Option.map_some', hfd]
  · intro t js ds i j hj hmiss
    have hnone : findDelayByRid (j.rid.getD "") ds = none := by
      by_cases he : j.rid.getD "" = ""
      · simp [findDelayByRid, he]
      · rcases hmiss with h | h
        · exact absurd h he
        · simp only [findDelayByRid, if_neg he]
          exact List.find?_eq_none.mpr (fun d hd => by simpa using h d hd)
    simp only [detectDelaysBatch, List.getElem?_map, hj, Option.map_some', hnone]
  · intro j
    exact ⟨rfl, rfl, rfl, rfl, rfl⟩

/-- Witness for the classification theorem: a matched nonempty rid is
classified against its record; an unmatched rid yields data-not-found; a
positive configured threshold is accepted. -/
theorem delayDetector_classification_witness :
    (detectDelaysBatch 15 [⟨some "j1", some "R1"⟩] [⟨"R1", 20, false, none⟩])[0]? =
      some (detectDelay 15 ⟨some "j1", some "R1"⟩ ⟨"R1", 20, false, none⟩) ∧
    (detectDelaysBatch 15 [⟨some "j2", some "R2"⟩] [⟨"R1", 20, false, none⟩])[0]? =
      some (dataNotFoundResult ⟨some "j2", some "R2"⟩) ∧
    mkDelayDetector (some 20) = .ok 20 :=
  ⟨delayDetector_classification.2.2.2.2.1 15 _ _ 0 _ "R1" _ rfl rfl
      (by decide) (by decide),
    delayDetector_classification.2.2.2.2.2.1 15 _ _ 0 _ rfl
      (Or.inr (by decide)),
    delayDetector_classification.1 (some 20) (by decide)⟩

/-- C4 counterexample: an oracle response with `success = false`, no
claim_reference_id and `eligible = false` is classified `NOT_ELIGIBLE`
(the eligible check runs before the service-error check), while the claim
as stated demands `SERVICE_ERROR` for every success=false response without
a reference id. -/
theorem triggerClaim_precedence_counterexample :
    triggerClaim 15 ⟨"alert-1", "journey-1", 20, "user-1", none, none⟩
      (.resp ⟨some false, none, some "processing failed", some false, none⟩) =
    ({ success := false
       reason := some .NOT_ELIGIBLE
       claimReferenceId := none
       estimatedCompensation := none
       existingClaimReferenceId := none
       error := none
       retryable := none
       delayAlertId := "alert-1" }, true) := by
  decide

/-- C4 (amended): triggerClaim returns ALREADY_TRIGGERED without calling
the oracle when claim_triggered is already true; BELOW_THRESHOLD without
calling the oracle when delay_minutes < T; otherwise it calls the oracle
and classifies: success=false with a reference id present → DUPLICATE_CLAIM
carrying that id; otherwise eligible=false (regardless of success) →
NOT_ELIGIBLE; otherwise success=false (no reference id, eligible not false)
→ SERVICE_ERROR with retryable=false; a thrown network/timeout/connection
exception → NETWORK_ERROR with retryable=true; success=true with eligible
not false and a reference id → SUCCESS returning the reference id and
optional estimated compensation. -/
theorem triggerClaim_classification (t : Int) (a : DelayAlertInput) :
    (∀ o, truthyB a.claim_triggered = true →
      triggerClaim t a o =
        ({ success := false, reason := some .ALREADY_TRIGGERED,
           claimReferenceId := none, estimatedCompensation := none,
           existingClaimReferenceId := a.claim_reference_id, error := none,
           retryable := none, delayAlertId := a.id }, false)) ∧
    (∀ o, truthyB a.claim_triggered = false → a.delay_minutes < t →
      triggerClaim t a o =
        ({ success := false, reason := some .BELOW_THRESHOLD,
           claimReferenceId := none, estimatedCompensation := none,
           existingClaimReferenceId := none, error := none,
           retryable := none, delayAlertId := a.id }, false)) ∧
    (∀ msg, truthyB a.claim_triggered = false → t ≤ a.delay_minutes →
      isNetworkErrorMsg msg = true →
      triggerClaim t a (.thrown msg) =
        ({ success := false, reason := some .NETWORK_ERROR,
           claimReferenceId := none, estimatedCompensation := none,
           existingClaimReferenceId := none, error := some msg,
           retryable := some true, delayAlertId := a.id }, true)) ∧
    (∀ r : ClaimTriggerApiResponse,
      truthyB a.claim_triggered = false → t ≤ a.delay_minutes →
      truthyB r.success = false → truthyS r.claim_reference_id = true →
      triggerClaim t a (.resp r) =
        ({ success := false, reason := some .DUPLICATE_CLAIM,
           claimReferenceId := none, estimatedCompensation := none,
           existingClaimReferenceId := r.claim_reference_id, error := none,
           retryable := none, delayAlertId := a.id }, true)) ∧
    (∀ r : ClaimTriggerApiResponse,
      truthyB a.claim_triggered = false → t ≤ a.delay_minutes →
      (truthyB r.success = true ∨ truthyS r.claim_reference_id = false) →
      r.eligible = some false →
      triggerClaim t a (.resp r) =
        ({ success := false, reason := some .NOT_ELIGIBLE,
           claimReferenceId := none, estimatedCompensation := none,
           existingClaimReferenceId := none, error := none,
           retryable := none, delayAlertId := a.id }, true)) ∧
    (∀ r : ClaimTriggerApiResponse,
      truthyB a.claim_triggered = false → t ≤ a.delay_minutes →
      truthyB r.success = false → truthyS r.claim_reference_id = false →
      r.eligible ≠ some false →
      triggerClaim t a (.resp r) =
        ({ success := false, reason := some .SERVICE_ERROR,
           claimReferenceId := none, estimatedCompensation := none,
           existingClaimReferenceId := none, error := r.message,
           retryable := some false, delayAlertId := a.id }, true)) ∧
    (∀ r : ClaimTriggerApiResponse,
      truthyB a.claim_triggered = false → t ≤ a.delay_minutes →
      truthyB r.success = true → r.eligible ≠ some false →
      truthyS r.claim_reference_id = true →
      triggerClaim t a (.resp r) =
        ({ success := true, reason := none,
           claimReferenceId := r.claim_reference_id,
           estimatedCompensation := r.estimated_compensation,
           existingClaimReferenceId := none, error := none,
           retryable := none, delayAlertId := a.id }, true)) := by
  refine ⟨?_, ?_, ?_, ?_, ?_, ?_, ?_⟩
  · intro o htrig
    simp [triggerClaim, htrig]
  · intro o htrig hlt
    simp [triggerClaim, htrig, hlt]
  · intro msg htrig hge hnet
    simp [triggerClaim, htrig, not_lt.mpr hge, hnet]
  · intro r htrig hge hsucc href
    simp [triggerClaim, htrig, not_lt.mpr hge, hsucc, href]
  · intro r htrig hge hcond helig
    rcases hcond with h | h <;>
      simp [triggerClaim, htrig, not_lt.mpr hge, h, helig]
  · intro r htrig hge hsucc href helig
    simp [triggerClaim, htrig, not_lt.mpr hge, hsucc, href, helig]
  · intro r htrig hge hsucc helig href
    simp [triggerClaim, htrig, not_lt.mpr hge, hsucc, href, helig]

/-- Witness: a 20-minute alert with a success/eligible oracle response and
reference id yields SUCCESS carrying that id and the estimated
compensation. -/
theorem triggerClaim_classification_witness :
    triggerClaim 15 ⟨"a1", "jx", 20, "u1", none, none⟩
      (.resp ⟨some true, some "CR1", none, some true, some 25⟩) =
    ({ success := true, reason := none, claimReferenceId := some "CR1",
       estimatedCompensation := some 25, existingClaimReferenceId := none,
       error := none, retryable := none, delayAlertId := "a1" }, true) :=
  (triggerClaim_classification 15 ⟨"a1", "jx", 20, "u1", none, none⟩).2.2.2.2.2.2
    ⟨some true, some "CR1", none, some true, some 25⟩
    rfl (by decide) rfl (by decide) (by decide)

/-- C7: registering a journey with no existing row for its journey_id
creates it in pending_rid, with next_check_at = departure − 48h when the
departure is strictly more than 48h away, and now + tick interval (5 min)
otherwise. -/
theorem registerJourney_initial_schedule (db : DB)
    (data : RegisterJourneyData) (now : Int) (newId : String)
    (hnone : findByJourneyId db data.journey_id = none) :
    ∃ j db', registerJourney db data now newId = .ok (j, db') ∧
      j.monitoring_status = .pending_rid ∧
      (t48HoursMs < data.scheduled_departure - now →
        j.next_check_at = some (data.scheduled_departure - t48HoursMs)) ∧
      (data.scheduled_departure - now ≤ t48HoursMs →
        j.next_check_at = some (now + tickIntervalMs)) := by
  simp only [registerJourney, hnone]
  refine ⟨_, _, rfl, rfl, ?_, ?_⟩
  · intro h
    simp only [if_pos h]
  · intro h
    simp only [if_neg (not_lt.mpr h)]

/-- Witness at the 48h + 1s boundary: with now = 0 and departure at
172801000 ms (48h + 1s), the initial check lands at departure − 48h =
1000 ms. -/
theorem registerJourney_initial_schedule_witness :
    findByJourneyId ⟨[], [], []⟩ "ext1" = none ∧
    ∃ j db',
      registerJourney ⟨[], [], []⟩
        ⟨"u1", "ext1", "2026-01-20", "AAA", "BBB", 172801000, 200000000⟩
        0 "id1" = .ok (j, db') ∧
      j.monitoring_status = .pending_rid ∧ j.next_check_at = some 1000 := by
  refine ⟨rfl, ?_⟩
  obtain ⟨j, db', h1, h2, h3, _⟩ :=
    registerJourney_initial_schedule ⟨[], [], []⟩
      ⟨"u1", "ext1", "2026-01-20", "AAA", "BBB", 172801000, 200000000⟩
      0 "id1" rfl
  exact ⟨j, db', h1, h2, (h3 (by decide)).trans (by norm_num [t48HoursMs])⟩

/-- The update a repository status change applies to the matching row,
expressed through `find?`. -/
theorem find?_setStatus (l : List Journey) (id : String)
    (st : MonitoringStatus) :
    (l.map (fun j =>
        if j.id = id then { j with monitoring_status := st } else j)).find?
        (fun x => x.id = id) =
      (l.find? (fun x => x.id = id)).map
        (fun j => { j with monitoring_status := st }) := by
  induction l with
  | nil => rfl
  | cons a l ih =>
    by_cases h : a.id = id
    · simp [h]
    · simp [h, ih]

/-- `repoUpdateStatus` with no rid leaves lookup-by-id tracking the status
change. -/
theorem findById_repoUpdateStatus (db : DB) (id : String)
    (st : MonitoringStatus) :
    findById (repoUpdateStatus db id st none) id =
      (findById db id).map (fun j => { j with monitoring_status := st }) := by
  simpa [findById, repoUpdateStatus, truthyS] using find?_setStatus db.journeys id st

/-- C8: for a journey that exists, updateStatus succeeds exactly for the
transitions in the permitted set the specification enumerates, storing the
new status; any other requested transition raises and leaves the store
unchanged. -/
theorem monitorUpdateStatus_permitted (db : DB) (id : String)
    (ns : MonitoringStatus) (j : Journey)
    (hfind : findById db id = some j) :
    (permittedTransitionSpec j.monitoring_status ns = true →
      (monitorUpdateStatus db id ns none).1 = .ok () ∧
      findById (monitorUpdateStatus db id ns none).2.1 id =
        some { j with monitoring_status := ns }) ∧
    (permittedTransitionSpec j.monitoring_status ns = false →
      (∃ e, (monitorUpdateStatus db id ns none).1 = .error e) ∧
      (monitorUpdateStatus db id ns none).2.1 = db) := by
  have hvc : (validTransitions j.monitoring_status).contains ns =
      permittedTransitionSpec j.monitoring_status ns := by
    cases j.monitoring_status <;> cases ns <;> rfl
  constructor
  · intro hperm
    have hm : ns ∈ validTransitions j.monitoring_status := by
      simpa using hvc.trans hperm
    refine ⟨by simp [monitorUpdateStatus, hfind, hm], ?_⟩
    simp [monitorUpdateStatus, hfind, hm, findById_repoUpdateStatus db id ns]
  · intro hperm
    have hm : ns ∉ validTransitions j.monitoring_status := by
      simpa using hvc.trans hperm
    refine ⟨⟨"Invalid status transition from " ++ j.monitoring_status.toStr ++
      " to " ++ ns.toStr, ?_⟩, ?_⟩ <;> simp [monitorUpdateStatus, hfind, hm]

/-- Witness: on the sample active journey, active → delayed succeeds and
stores delayed; active → pending_rid raises and leaves the store as it
was. -/
theorem monitorUpdateStatus_permitted_witness :
    permittedTransitionSpec sampleActiveJourney.monitoring_status .delayed = true ∧
    (monitorUpdateStatus sampleDB "j1" .delayed none).1 = .ok () ∧
    findById (monitorUpdateStatus sampleDB "j1" .delayed none).2.1 "j1" =
      some { sampleActiveJourney with monitoring_status := .delayed } ∧
    permittedTransitionSpec sampleActiveJourney.monitoring_status .pending_rid = false ∧
    (∃ e, (monitorUpdateStatus sampleDB "j1" .pending_rid none).1 = .error e) ∧
    (monitorUpdateStatus sampleDB "j1" .pending_rid none).2.1 = sampleDB := by
  have h1 := (monitorUpdateStatus_permitted sampleDB "j1" .delayed
    sampleActiveJourney (by decide)).1 (by decide)
  have h2 := (monitorUpdateStatus_permitted sampleDB "j1" .pending_rid
    sampleActiveJourney (by decide)).2 (by decide)
  exact ⟨by decide, h1.1, h1.2, by decide, h2.1, h2.2⟩

/-- C9: when no journey exists under the given id, updateStatus skips
transition validation entirely — it raises for no target status — and the
status-update statement is still issued against the store for that id. -/
theorem monitorUpdateStatus_missing_journey (db : DB) (id : String)
    (ns : MonitoringStatus) (rid : Option String)
    (hnone : findById db id = none) :
    (monitorUpdateStatus db id ns rid).1 = .ok () ∧
    (monitorUpdateStatus db id ns rid).2.2 = [⟨id, ns, rid⟩] ∧
    (monitorUpdateStatus db id ns rid).2.1 = repoUpdateStatus db id ns rid := by
  simp [monitorUpdateStatus, hnone]

/-- Witness: updating a nonexistent journey id raises nothing and still
issues the update statement. -/
theorem monitorUpdateStatus_missing_journey_witness :
    (monitorUpdateStatus ⟨[], [], []⟩ "ghost" .delayed none).1 = .ok () ∧
    (monitorUpdateStatus ⟨[], [], []⟩ "ghost" .delayed none).2.2 =
      [⟨"ghost", .delayed, none⟩] :=
  ⟨(monitorUpdateStatus_missing_journey ⟨[], [], []⟩ "ghost" .delayed none rfl).1,
    (monitorUpdateStatus_missing_journey ⟨[], [], []⟩ "ghost" .delayed none rfl).2.1⟩

/-- C10 counterexample: the empty string is stored as NULL by the create
path (JavaScript truthiness), so reading it back yields null, not the
identical string — the round trip is not an identity for every string. -/
theorem claimResponse_empty_string_counterexample :
    createClaimResponseStored (some "") = none ∧
    readClaimTriggerResponse (createClaimResponseStored (some "")) ≠ some "" := by
  decide

/-- C10 (amended): for every NONEMPTY string, both the create and the
update paths wrap the string as the JSON object with a `message` key, and
mapRow unwraps it back — a round-trip identity on nonempty strings. -/
theorem claimResponse_round_trip (s : String) (h : s ≠ "") :
    createClaimResponseStored (some s) = some (.jmsgObj s) ∧
    readClaimTriggerResponse (createClaimResponseStored (some s)) = some s ∧
    updateClaimResponseStored s = .ok (some (.jmsgObj s)) ∧
    (∀ st, updateClaimResponseStored s = .ok st →
      readClaimTriggerResponse st = some s) := by
  refine ⟨?_, ?_, ?_, ?_⟩
  · simp [createClaimResponseStored, h]
  · simp [createClaimResponseStored, readClaimTriggerResponse, h]
  · simp [updateClaimResponseStored, h]
  · intro st hst
    simp only [updateClaimResponseStored, if_neg h, Except.ok.injEq] at hst
    rw [← hst]
    rfl

/-- Witness: a concrete nonempty response string survives the round trip. -/
theorem claimResponse_round_trip_witness :
    readClaimTriggerResponse (createClaimResponseStored (some "retry later")) =
      some "retry later" :=
  (claimResponse_round_trip "retry later" (by decide)).2.1

/-- C1: at this concrete input the per-journey commit sees a 30-minute
delay and an exception strikes the delay.detected outbox insert before
COMMIT.  After the rollback the alert insert and the outbox writes are
gone, yet the journey status transition to delayed has taken durable
effect, because `JourneyRepository.updateStatus` has no transaction-client
parameter and executes on the pool, outside the per-journey transaction:
the commit is not all-or-nothing.  The cycle itself still completes
normally (the result is `.ok`, with the bulk pacing update applied). -/
theorem detectionCycle_status_survives_rollback :
    ((runDetectionCycle sampleDB { sampleEnv with
        darwin := .ok [⟨"R1", 30, false, none⟩]
        fault := .failDelayDetectedInsert }).map
      (fun o => ((findById o.db "j1").map (fun j => j.monitoring_status),
        o.db.alerts, o.db.outbox))).toOption =
    some (some .delayed, [], []) := by
  decide

/-- C2: at this concrete input the cycle observes a cancellation
(observed 0 minutes, cancelled) for the sample active journey, and every
statement succeeds.  After the cycle the journey is cancelled yet
`next_check_at = now + 5 min`, not null: the commit's cancellation
transition does not clear it, and the final bulk pacing update (which
excludes only completed journeys) re-sets it — the terminal-state
invariant is violated by the detection cycle. -/
theorem detectionCycle_cancelled_keeps_next_check :
    ((runDetectionCycle sampleDB { sampleEnv with
        darwin := .ok [⟨"R1", 0, true, none⟩] }).map
      (fun o => (findById o.db "j1").map
        (fun j => (j.monitoring_status, j.next_check_at)))).toOption =
    some (some (.cancelled, some 1300000)) := by
  decide

/-- C5 counterexample: a cancelled record with observed delay −1 minutes.
The claim requires an alert with delay_minutes = max(1, −1) = 1 and a
transition to cancelled; the code computes −1 (the 1-substitution fires
only at exactly 0), the insert violates the delay_minutes > 0 check
constraint, the transaction rolls back, and the journey stays active with
no alert and no outbox row. -/
theorem detectionCycle_negative_cancellation_counterexample :
    ((runDetectionCycle sampleDB { sampleEnv with
        darwin := .ok [⟨"R1", -1, true, none⟩] }).map
      (fun o => ((findById o.db "j1").map (fun j => j.monitoring_status),
        o.db.alerts, o.db.outbox))).toOption =
    some (some .active, [], []) := by
  decide

/-- C6 counterexample: the due set holds exactly one active journey (rid
"R1") and the upstream returns exactly one record carrying the different
rid "R2" with a 30-minute delay.  The claim requires a data_not_found
result (and hence no alert) for the journey; instead the orchestrator's
single-journey fallback re-keys the record to "R1" and the journey is
marked delayed with an alert of 30 minutes and a triggered claim. -/
theorem detectionCycle_rid_fallback_counterexample :
    sampleActiveJourney.rid = some "R1" ∧
    ((runDetectionCycle sampleDB { sampleEnv with
        darwin := .ok [⟨"R2", 30, false, none⟩]
        oracleFor := fun _ =>
          .resp ⟨some true, some "CR1", none, some true, some 25⟩ }).map
      (fun o => ((findById o.db "j1").map (fun j => j.monitoring_status),
        o.db.alerts.map (fun a => a.delay_minutes),
        o.db.outbox.map (fun r => r.event_type)))).toOption =
    some (some .delayed, [30], ["delay.detected", "claim.triggered"]) := by
  decide

/-- A rid with no exactly-equal record (or an empty rid) finds nothing. -/
theorem findDelayByRid_eq_none (s : String) (ds : List DelayData)
    (h : ∀ d ∈ ds, d.rid ≠ s) : findDelayByRid s ds = none := by
  by_cases he : s = ""
  · simp [findDelayByRid, he]
  · simp only [findDelayByRid, if_neg he]
    exact List.find?_eq_none.mpr (fun d hd => by simpa using h d hd)

/-- Batch detection emits the data-not-found result at a position whose
journey finds no record. -/
theorem detectDelaysBatch_getElem_none (t : Int) (js : List JourneyData)
    (ds : List DelayData) (i : Nat) (j : JourneyData)
    (hj : js[i]? = some j)
    (hnone : findDelayByRid (j.rid.getD "") ds = none) :
    (detectDelaysBatch t js ds)[i]? = some (dataNotFoundResult j) := by
  simp only [detectDelaysBatch, List.getElem?_map, hj, Option.map_some', hnone]

/-- Outside the one-journey/one-record shape, the orchestrator uses the
upstream records unchanged. -/
theorem mapDelayData_eq_of_not_single (js : List Journey)
    (ds : List DelayData) (h : js.length ≠ 1 ∨ ds.length ≠ 1) :
    mapDelayData js ds = ds := by
  rcases js with _ | ⟨a, _ | ⟨a2, jl⟩⟩
  · rfl
  · rcases ds with _ | ⟨d, _ | ⟨d2, dl⟩⟩
    · rfl
    · rcases h with h | h <;> simp at h
    · rfl
  · rfl

/-- C6 (amended): detection matches journeys to records by exact string
equality on rid — a journey for which no record with an exactly equal rid
exists receives a data_not_found result — EXCEPT in the fallback where the
due active set and the upstream response are both singletons: there the
single record is re-keyed to the journey's rid and applied to it
regardless of the rid it carried. -/
theorem classifyActive_exact_matching :
    (∀ (t : Int) (js : List Journey) (ds : List DelayData) (i : Nat)
        (j : Journey),
      (js.length ≠ 1 ∨ ds.length ≠ 1) → js[i]? = some j →
      (∀ d ∈ ds, d.rid ≠ j.rid.getD "") →
      (classifyActive t js ds)[i]? =
        some (dataNotFoundResult ⟨some j.id, j.rid⟩)) ∧
    (∀ (t : Int) (j : Journey) (d : DelayData) (r : String),
      j.rid = some r → r ≠ "" →
      classifyActive t [j] [d] =
        [detectDelay t ⟨some j.id, j.rid⟩ { d with rid := r }]) := by
  constructor
  · intro t js ds i j hsize hj hnomatch
    unfold classifyActive
    rw [mapDelayData_eq_of_not_single js ds hsize]
    refine detectDelaysBatch_getElem_none t _ ds i ⟨some j.id, j.rid⟩ ?_ ?_
    · simp [List.getElem?_map, hj]
    · exact findDelayByRid_eq_none _ ds hnomatch
  · intro t j d r hr hne
    unfold classifyActive mapDelayData
    simp [detectDelaysBatch, findDelayByRid, hr, hne]

/-- Witness: with an empty upstream response the sample journey is
data-not-found; in the singleton fallback a record with rid "R2" is
applied to the rid-"R1" journey. -/
theorem classifyActive_exact_matching_witness :
    (classifyActive 15 [sampleActiveJourney] [])[0]? =
      some (dataNotFoundResult ⟨some "j1", some "R1"⟩) ∧
    classifyActive 15 [sampleActiveJourney] [⟨"R2", 30, false, none⟩] =
      [detectDelay 15 ⟨some "j1", some "R1"⟩ ⟨"R1", 30, false, none⟩] :=
  ⟨classifyActive_exact_matching.1 15 [sampleActiveJourney] [] 0
      sampleActiveJourney (Or.inr (by decide)) rfl (by simp),
    classifyActive_exact_matching.2 15 sampleActiveJourney
      ⟨"R2", 30, false, none⟩ "R1" rfl (by decide)⟩

/-- C5 (amended): for an active journey whose record reports cancelled with
a NON-NEGATIVE observed delay, the per-journey commit (with no failure)
inserts a DelayAlert with delay_minutes = max(1, observed) and
is_cancellation = true, transitions the journey to cancelled, appends
exactly one delay.detected outbox event, and never invokes the claim
trigger; in particular observed 0 records delay_minutes 1. -/
theorem processResult_cancellation (claimThr : Int) (js : List Journey)
    (corr : String) (now : Int) (aid : String → String)
    (oracle : String → OracleOutcome) (db : DB) (result : DelayResult)
    (j jdb : Journey)
    (hfindJ : js.find? (fun x => x.id = result.journeyId) = some j)
    (hcanc : result.isCancelled = true)
    (hnn : 0 ≤ result.delayMinutes)
    (hdb : findById db result.journeyId = some jdb)
    (hact : jdb.monitoring_status = .active) :
    (processResult claimThr js corr now aid oracle .noFault db result).db.alerts =
      db.alerts ++
        [{ id := aid result.journeyId
           monitored_journey_id := result.journeyId
           delay_minutes := max 1 result.delayMinutes
           delay_detected_at := now
           delay_reasons := result.delayReasons
           is_cancellation := true
           threshold_exceeded := result.exceedsThreshold
           claim_triggered := false
           claim_triggered_at := none
           claim_reference_id := none
           claim_trigger_response := none
           notification_sent := false }] ∧
    findById
        (processResult claimThr js corr now aid oracle .noFault db result).db
        result.journeyId = some { jdb with monitoring_status := .cancelled } ∧
    (processResult claimThr js corr now aid oracle .noFault db result).db.outbox =
      db.outbox ++ [delayDetectedRow result.journeyId (aid result.journeyId)
        j.user_id result.delayMinutes corr] ∧
    (processResult claimThr js corr now aid oracle .noFault
        db result).claimTriggerInvoked = false := by
  have hdm : (if result.delayMinutes = 0 then (1 : Int)
      else result.delayMinutes) = max 1 result.delayMinutes := by
    by_cases h0 : result.delayMinutes = 0
    · rw [if_pos h0, h0]
      omega
    · rw [if_neg h0]
      omega
  have hpos : ¬ (max 1 result.delayMinutes ≤ 0) := by omega
  have hms : monitorUpdateStatus db result.journeyId .cancelled none =
      (.ok (), repoUpdateStatus db result.journeyId .cancelled none,
        [⟨result.journeyId, .cancelled, none⟩]) := by
    have : MonitoringStatus.cancelled ∈
        validTransitions jdb.monitoring_status := by
      rw [hact]; decide
    simp [monitorUpdateStatus, hdb, this]
  have key : processResult claimThr js corr now aid oracle .noFault db result =
      ⟨{ journeys := (repoUpdateStatus db result.journeyId .cancelled none).journeys
         alerts := db.alerts ++
           [{ id := aid result.journeyId
              monitored_journey_id := result.journeyId
              delay_minutes := max 1 result.delayMinutes
              delay_detected_at := now
              delay_reasons := result.delayReasons
              is_cancellation := true
              threshold_exceeded := result.exceedsThreshold
              claim_triggered := false
              claim_triggered_at := none
              claim_reference_id := none
              claim_trigger_response := none
              notification_sent := false }]
         outbox := db.outbox ++ [delayDetectedRow result.journeyId
           (aid result.journeyId) j.user_id result.delayMinutes corr] },
        true, false, 1, 0⟩ := by
    simp [processResult, hfindJ, hcanc, hms, hdm, hpos]
    exact ⟨rfl, rfl⟩
  refine ⟨?_, ?_, ?_, ?_⟩
  · rw [key]
  · rw [key]
    have h2 := findById_repoUpdateStatus db result.journeyId .cancelled
    rw [hdb] at h2
    simpa [findById] using h2
  · rw [key]
  · rw [key]

/-- Witness: the sample journey with a cancelled record observing 0
minutes — the alert records delay_minutes 1 = max(1, 0). -/
theorem processResult_cancellation_witness :
    (processResult 15 [sampleActiveJourney] "c1" 1000000 (fun _ => "a1")
        (fun _ => .thrown "never") .noFault sampleDB
        { journeyId := "j1", rid := "R1", isDelayed := true,
          isCancelled := true, delayMinutes := 0, exceedsThreshold := false,
          claimEligible := true, delayReasons := none,
          dataNotFound := false }).db.alerts =
      [{ id := "a1", monitored_journey_id := "j1", delay_minutes := 1,
         delay_detected_at := 1000000, delay_reasons := none,
         is_cancellation := true, threshold_exceeded := false,
         claim_triggered := false, claim_triggered_at := none,
         claim_reference_id := none, claim_trigger_response := none,
         notification_sent := false }] ∧
    (processResult 15 [sampleActiveJourney] "c1" 1000000 (fun _ => "a1")
        (fun _ => .thrown "never") .noFault sampleDB
        { journeyId := "j1", rid := "R1", isDelayed := true,
          isCancelled := true, delayMinutes := 0, exceedsThreshold := false,
          claimEligible := true, delayReasons := none,
          dataNotFound := false }).claimTriggerInvoked = false := by
  have h := processResult_cancellation 15 [sampleActiveJourney] "c1" 1000000
    (fun _ => "a1") (fun _ => .thrown "never") sampleDB
    { journeyId := "j1", rid := "R1", isDelayed := true, isCancelled := true,
      delayMinutes := 0, exceedsThreshold := false, claimEligible := true,
      delayReasons := none, dataNotFound := false }
    sampleActiveJourney sampleActiveJourney (by decide) rfl (by decide)
    (by decide) rfl
  exact ⟨h.1, h.2.2.2⟩

end DelayTracker
